import Mathlib

/- Verification development for the RustBerry PoE monitor repository.
   Shallow embedding of the display layout engine and its collaborators from
   src/display_types.rs, src/display.rs, src/default_config.rs and
   src/main.rs. Rust i32 arithmetic is modelled as Int (the values involved
   are tiny, far from any overflow boundary); Rust strings are modelled as
   Lean strings with character based lengths; i32 division is Int.tdiv,
   which truncates toward zero exactly as Rust division does. -/

namespace RustBerry

/-- Font styles available to the layout engine: the five MonoTextStyle
constants declared in display_types.rs (FONT_5X8, FONT_6X12,
PCSENIOR8_STYLE, PROFONT12, PROFONT9). -/
inductive FontStyle
  | FONT_5X8
  | FONT_6X12
  | PCSENIOR8_STYLE
  | PROFONT12
  | PROFONT9
deriving DecidableEq

/-- Glyph cell width (character_size.width) of each font style. PCSENIOR8 is
declared in display_types.rs with character_size 8 x 10; the remaining values
are the character sizes of the embedded-graphics and profont crate constants
that display_types.rs imports. -/
def characterWidth : FontStyle → Int
  | .FONT_5X8 => 5
  | .FONT_6X12 => 6
  | .PCSENIOR8_STYLE => 8
  | .PROFONT12 => 7
  | .PROFONT9 => 5

/-- Inter-glyph spacing (character_spacing) of each font style. PCSENIOR8
declares character_spacing 0 in display_types.rs; the crate fonts used here
also carry spacing 0. -/
def characterSpacing : FontStyle → Int
  | _ => 0

/-- display.rs get_char_width_from_text_style: the character width used for
layout is character_size.width plus character_spacing of the font. -/
def get_char_width_from_text_style (f : FontStyle) : Int :=
  characterWidth f + characterSpacing f

/-- display_types.rs PositionValue: an untagged serde enum, either a literal
number, a keyword string, or an anchor relative record with fields align and
anchor. -/
inductive PositionValue
  | Number (n : Int)
  | Text (s : String)
  | Relative (align : String) (anchor : Int)
deriving DecidableEq

/-- display_types.rs PositionConfig. -/
structure PositionConfig where
  x : PositionValue
  y : PositionValue
deriving DecidableEq

/-- display_types.rs ValueConfig. -/
structure ValueConfig where
  text : String
  font : String
deriving DecidableEq

/-- display_types.rs PrefixSuffixConfig. -/
structure PrefixSuffixConfig where
  text : String
  font : String
deriving DecidableEq

/-- display_types.rs ComponentConfig. The first optional run field is called
prefix in the Rust source; Lean reserves that word, so the field is named
with a trailing underscore here. -/
structure ComponentConfig where
  value : ValueConfig
  prefix_ : Option PrefixSuffixConfig
  suffix : Option PrefixSuffixConfig
deriving DecidableEq

/-- display_types.rs ElementConfig. -/
structure ElementConfig where
  id : String
  position : PositionConfig
  components : List ComponentConfig
deriving DecidableEq

/-- display_types.rs Orientation: serde renames map the JSON strings
landscape and portrait onto the two variants. -/
inductive Orientation
  | Landscape
  | Portrait
deriving DecidableEq

/-- display_types.rs DisplayConfig: the flattened single orientation shape
with an explicit orientation tag. This is the only configuration type the
repository declares and the type PoeDisplay::new parses the JSON file
against. -/
structure DisplayConfig where
  orientation : Orientation
  width : Int
  height : Int
  elements : List ElementConfig
deriving DecidableEq

/-- One orientation block as the renderer reads it: update_display in
display.rs accesses orientation.width (lines 250 and 252) and
orientation.elements (line 141) of the selected block. display_types.rs
declares no such type; this structure records exactly the fields the
renderer accesses. -/
structure OrientationLayout where
  width : Int
  elements : List ElementConfig
deriving DecidableEq

/-- The dual orientation configuration shape presumed by update_display,
which reads self.config.orientations.landscape and
self.config.orientations.portrait (display.rs lines 135 to 138).
display_types.rs declares no such field on DisplayConfig. -/
structure Orientations where
  landscape : OrientationLayout
  portrait : OrientationLayout
deriving DecidableEq

/-- The telemetry arguments of update_display (display.rs lines 112 to 124):
ip_info is the (interface name, ip string, octets) triple produced by
get_local_ip in main.rs; the octet array is modelled as a quadruple of
naturals below 256. -/
structure Telemetry where
  ip_info : String × String × (Nat × Nat × Nat × Nat)
  ip_address : String
  interface : String
  interface_phys : String
  interface_numvlan : String
  ip_octets : Nat × Nat × Nat × Nat
  cpu_usage : String
  cpu_temp_str : String
  ram_usage : String
  disk_usage : String
deriving DecidableEq

/-- Value token resolution from update_display (display.rs lines 161 to 174):
an exact, case sensitive match on the value text; any unrecognized string is
returned unchanged. The first component of the ip_info triple is the
interface name supplied by the caller in main.rs. -/
def resolveValue (t : Telemetry) (s : String) : String :=
  if s = "interface_phys" then t.interface_phys
  else if s = "interface_numvlan" then t.interface_numvlan
  else if s = "ip_info.0" then t.ip_info.1
  else if s = "ip_octets(0)" then toString t.ip_octets.1
  else if s = "ip_octets(1)" then toString t.ip_octets.2.1
  else if s = "ip_octets(2)" then toString t.ip_octets.2.2.1
  else if s = "ip_octets(3)" then toString t.ip_octets.2.2.2
  else if s = "cpu_usage" then t.cpu_usage
  else if s = "cpu_temp" then t.cpu_temp_str
  else if s = "ram_usage" then t.ram_usage
  else if s = "disk_usage" then t.disk_usage
  else s

/-- Font name lookup from update_display (display.rs lines 177 to 184, the
same match is repeated for prefix and suffix fonts): five recognized names,
anything else falls back to FONT_5X8. -/
def fontFromName (name : String) : FontStyle :=
  if name = "FONT_5X8" then .FONT_5X8
  else if name = "FONT_6X12" then .FONT_6X12
  else if name = "PCSENIOR8_STYLE" then .PCSENIOR8_STYLE
  else if name = "PROFONT12" then .PROFONT12
  else if name = "PROFONT9" then .PROFONT9
  else .FONT_5X8

/-- Horizontal origin resolution from update_display (display.rs lines 248
to 262). Rust i32 division truncates toward zero, hence Int.tdiv. The
second field of the Relative pattern is bound as reference in display.rs. -/
def resolve_x_position (canvas_width total_element_width : Int) : PositionValue → Int
  | .Text val =>
    if val = "center" then Int.tdiv (canvas_width - total_element_width) 2
    else if val = "left" then 0
    else if val = "right" then canvas_width - total_element_width
    else 0
  | .Number val => val
  | .Relative align reference =>
    if align = "center" then reference - Int.tdiv total_element_width 2
    else if align = "left" then reference
    else if align = "right" then reference - total_element_width
    else reference

/-- Vertical origin resolution from update_display (display.rs lines 264 to
271): the incrementing keyword, like every other keyword, resolves to 0; a
number is used as is; an anchor relative value uses the anchor verbatim. -/
def resolve_y_position : PositionValue → Int
  | .Text _ => 0
  | .Number val => val
  | .Relative _ reference => reference

/-- The PreparedComponent record built inside update_display (display.rs
lines 143 to 154). -/
structure PreparedComponent where
  value_text : String
  value_font : FontStyle
  value_width : Int
  prefix_text : Option String
  prefix_font : Option FontStyle
  prefix_width : Int
  suffix_text : Option String
  suffix_font : Option FontStyle
  suffix_width : Int
  total_width : Int
deriving DecidableEq

/-- Component preparation from update_display (display.rs lines 159 to 244):
resolve the value text and fonts, compute each run width as text length
times the font character width, with width 0 for an absent prefix or
suffix, and record the component total width. -/
def prepareComponent (t : Telemetry) (component : ComponentConfig) : PreparedComponent :=
  let value_text := resolveValue t component.value.text
  let value_font := fontFromName component.value.font
  let char_width := get_char_width_from_text_style value_font
  let value_width := (value_text.length : Int) * char_width
  let prefixTriple : Option String × Option FontStyle × Int :=
    match component.prefix_ with
    | some p =>
      let prefix_font := fontFromName p.font
      let prefix_char_width := get_char_width_from_text_style prefix_font
      (some p.text, some prefix_font, (p.text.length : Int) * prefix_char_width)
    | none => (none, none, 0)
  let suffixTriple : Option String × Option FontStyle × Int :=
    match component.suffix with
    | some sfx =>
      let suffix_font := fontFromName sfx.font
      let suffix_char_width := get_char_width_from_text_style suffix_font
      (some sfx.text, some suffix_font, (sfx.text.length : Int) * suffix_char_width)
    | none => (none, none, 0)
  { value_text := value_text
    value_font := value_font
    value_width := value_width
    prefix_text := prefixTriple.1
    prefix_font := prefixTriple.2.1
    prefix_width := prefixTriple.2.2
    suffix_text := suffixTriple.1
    suffix_font := suffixTriple.2.1
    suffix_width := suffixTriple.2.2
    total_width := prefixTriple.2.2 + value_width + suffixTriple.2.2 }

/-- The element preparation loop of update_display (display.rs lines 156 to
245): collect the prepared components in order and accumulate the total
element width. -/
def prepareElement (t : Telemetry) (components : List ComponentConfig) :
    List PreparedComponent × Int :=
  components.foldl
    (fun acc component =>
      let pc := prepareComponent t component
      (acc.1 ++ [pc], acc.2 + pc.total_width))
    ([], 0)

/-- One emitted draw operation: a text run, its origin and its font, exactly
the data passed to Text::new in update_display. -/
structure Triple where
  text : String
  x : Int
  y : Int
  font : FontStyle
deriving DecidableEq

/-- The per component drawing step of update_display (display.rs lines 276
to 292): draw the prefix if present and advance by its width, draw the
value and advance, draw the suffix if present and advance. Returns the
emitted triples and the updated x cursor. -/
def componentTriples (current_x y_position : Int) (component : PreparedComponent) :
    List Triple × Int :=
  let step1 : List Triple × Int :=
    match component.prefix_text, component.prefix_font with
    | some prefix_text, some prefix_font =>
      ([{ text := prefix_text, x := current_x, y := y_position, font := prefix_font }],
        current_x + component.prefix_width)
    | _, _ => ([], current_x)
  let step2 : List Triple × Int :=
    (step1.1 ++ [{ text := component.value_text, x := step1.2, y := y_position,
                   font := component.value_font }],
      step1.2 + component.value_width)
  match component.suffix_text, component.suffix_font with
  | some suffix_text, some suffix_font =>
    (step2.1 ++ [{ text := suffix_text, x := step2.2, y := y_position, font := suffix_font }],
      step2.2 + component.suffix_width)
  | _, _ => step2

/-- The drawing loop of update_display over the prepared components
(display.rs lines 273 to 293), threading the x cursor. -/
def elementTriples (x_position y_position : Int) : List PreparedComponent → List Triple
  | [] => []
  | component :: rest =>
    let step := componentTriples x_position y_position component
    step.1 ++ elementTriples step.2 y_position rest

/-- Layout of one element inside update_display: prepare the components,
resolve the element origin from the position configuration and the total
element width, then emit the draw triples. -/
def layoutElement (t : Telemetry) (canvas_width : Int) (element : ElementConfig) :
    List Triple :=
  let prepared := prepareElement t element.components
  let x_position := resolve_x_position canvas_width prepared.2 element.position.x
  let y_position := resolve_y_position element.position.y
  elementTriples x_position y_position prepared.1

/-- Orientation selection of update_display (display.rs lines 135 to 138):
the portrait name selects the portrait block, any other value defaults to
the landscape block. -/
def selectOrientation (cfg : Orientations) (orientation_name : String) : OrientationLayout :=
  if orientation_name = "portrait" then cfg.portrait else cfg.landscape

set_option linter.dupNamespace false in
/-- The DisplayError enum of display.rs. The Rust payloads (io error, serde
error, interface error, message) carry no information the claims need except
the ConfigError message. -/
inductive DisplayError
  | InvalidOrientation
  | IoError
  | JsonError
  | DisplayError
  | ConfigError (msg : String)
deriving DecidableEq

/-- One framebuffer operation issued by update_display: the initial clear,
a text draw, or the final flush. -/
inductive Op
  | clear
  | draw (t : Triple)
  | flush
deriving DecidableEq

/-- The full operation sequence one update_display cycle attempts, in
program order: clear first (display.rs line 129), then every triple of
every element of the selected orientation in schema order, then flush
(line 296). -/
def update_display_ops (cfg : Orientations) (orientation_name : String) (t : Telemetry) :
    List Op :=
  let orientation := selectOrientation cfg orientation_name
  Op.clear ::
    (orientation.elements.flatMap
      (fun element => (layoutElement t orientation.width element).map Op.draw)
      ++ [Op.flush])

/-- State of a running cycle: the operations the device has performed so
far, and the index of the next operation. -/
structure RunState where
  ops : List Op
  idx : Nat
deriving DecidableEq

/-- Execution of an operation list against a device. The device is modelled
as a predicate on the operation index saying whether that operation
succeeds; the question mark operator of Rust makes the first failing
operation abort the whole cycle, so execution stops at the first failure
and surfaces the draw error (every draw and flush failure is converted into
DisplayError::DisplayError by the From impl in display.rs). -/
def runOps (dev : Nat → Bool) : RunState → List Op → RunState × Except DisplayError Unit
  | st, [] => (st, Except.ok ())
  | st, op :: rest =>
    if dev st.idx then runOps dev { ops := st.ops ++ [op], idx := st.idx + 1 } rest
    else (st, Except.error DisplayError.DisplayError)

/-- One update_display cycle (display.rs lines 112 to 299): generate the
operation sequence for the requested orientation and run it against the
device, returning the performed operations and the surfaced result. The
operation contents never depend on device outcomes, so computing the
sequence up front is behaviourally identical to the interleaved loop of the
source. -/
def update_display (dev : Nat → Bool) (cfg : Orientations) (orientation_name : String)
    (t : Telemetry) : List Op × Except DisplayError Unit :=
  let r := runOps dev { ops := [], idx := 0 } (update_display_ops cfg orientation_name t)
  (r.1.ops, r.2)

/-- Splitting a character list at every dot, mirroring the Rust iterator
chain interface.split docDot collect in split_interface (main.rs line 377):
an empty input yields one empty part, a dot starts a new part, any other
character is prepended to the current first part. -/
def splitDot : List Char → List (List Char)
  | [] => [[]]
  | c :: rest =>
    match splitDot rest with
    | [] => [[c]]
    | p :: ps => if c = '.' then [] :: p :: ps else (c :: p) :: ps

/-- Joining a part list with dots between the parts: the inverse view of
splitDot used to reason about its output. -/
def joinDots : List (List Char) → List Char
  | [] => []
  | [p] => p
  | p :: q :: qs => p ++ '.' :: joinDots (q :: qs)

/-- main.rs split_interface (lines 376 to 404): when the name splits into
exactly two parts around a single dot and the first part is nonempty, the
physical name is the first part with its last character removed (the whole
part when it is a single character) and the vlan string is that last
character, a dot, and the second part; every other input is returned with an
empty vlan string. -/
def split_interface (interface : String) : String × String :=
  match splitDot interface.toList with
  | [p0, p1] =>
    if p0.isEmpty then (interface, "")
    else
      match p0.getLast? with
      | some last_char =>
        let numvlan := String.mk (last_char :: '.' :: p1)
        if p0.length > 1 then (String.mk p0.dropLast, numvlan)
        else (String.mk p0, numvlan)
      | none => (interface, "")
  | _ => (interface, "")

/-- A JSON value, the document shape serde parses configuration files
into. Numbers are modelled as integers; every number in a display
configuration is an i32 field. -/
inductive Json
  | null
  | bool (b : Bool)
  | num (n : Int)
  | str (s : String)
  | arr (xs : List Json)
  | obj (fields : List (String × Json))

/-- First binding of a field name in a JSON object, as serde field lookup
behaves on well formed documents. -/
def jsonField : List (String × Json) → String → Option Json
  | [], _ => none
  | (k, v) :: rest, name => if k = name then some v else jsonField rest name

/-- The object fields of a JSON value, if it is an object. -/
def asObj : Json → Option (List (String × Json))
  | .obj fields => some fields
  | _ => none

/-- The string content of a JSON value, if it is a string. -/
def asStr : Json → Option String
  | .str s => some s
  | _ => none

/-- The integer content of a JSON value, if it is a number. -/
def asNum : Json → Option Int
  | .num n => some n
  | _ => none

/-- The element list of a JSON value, if it is an array. -/
def asArr : Json → Option (List Json)
  | .arr xs => some xs
  | _ => none

/-- Deserialization of the Orientation enum of display_types.rs: the serde
renames accept exactly the strings landscape and portrait. -/
def parseOrientation (j : Json) : Option Orientation :=
  match j with
  | .str s =>
    if s = "landscape" then some .Landscape
    else if s = "portrait" then some .Portrait
    else none
  | _ => none

/-- Deserialization of the untagged PositionValue enum of display_types.rs:
serde tries the variants in declaration order, so a number becomes Number, a
string becomes Text, and an object with align and anchor fields becomes
Relative. -/
def parsePositionValue (j : Json) : Option PositionValue :=
  match j with
  | .num n => some (.Number n)
  | .str s => some (.Text s)
  | .obj fields => do
    let al ← asStr (← jsonField fields "align")
    let an ← asNum (← jsonField fields "anchor")
    pure (.Relative al an)
  | _ => none

/-- Deserialization of PositionConfig: both coordinate fields required. -/
def parsePositionConfig (j : Json) : Option PositionConfig := do
  let fields ← asObj j
  let xv ← parsePositionValue (← jsonField fields "x")
  let yv ← parsePositionValue (← jsonField fields "y")
  pure { x := xv, y := yv }

/-- Deserialization of ValueConfig: text and font fields required. -/
def parseValueConfig (j : Json) : Option ValueConfig := do
  let fields ← asObj j
  let tv ← asStr (← jsonField fields "text")
  let fv ← asStr (← jsonField fields "font")
  pure { text := tv, font := fv }

/-- Deserialization of PrefixSuffixConfig: text and font fields required. -/
def parsePrefixSuffixConfig (j : Json) : Option PrefixSuffixConfig := do
  let fields ← asObj j
  let tv ← asStr (← jsonField fields "text")
  let fv ← asStr (← jsonField fields "font")
  pure { text := tv, font := fv }

/-- Serde handling of an optional struct field: a missing or null field is
None, a present value must deserialize and becomes Some. -/
def parseOptionalField (fields : List (String × Json)) (name : String)
    (p : Json → Option PrefixSuffixConfig) : Option (Option PrefixSuffixConfig) :=
  match jsonField fields name with
  | none => some none
  | some .null => some none
  | some j => (p j).map some

/-- Deserialization of ComponentConfig: required value, optional prefix and
suffix runs. -/
def parseComponentConfig (j : Json) : Option ComponentConfig := do
  let fields ← asObj j
  let v ← parseValueConfig (← jsonField fields "value")
  let pfx ← parseOptionalField fields "prefix" parsePrefixSuffixConfig
  let sfx ← parseOptionalField fields "suffix" parsePrefixSuffixConfig
  pure { value := v, prefix_ := pfx, suffix := sfx }

/-- Deserialization of ElementConfig: id, position and components all
required. -/
def parseElementConfig (j : Json) : Option ElementConfig := do
  let fields ← asObj j
  let idv ← asStr (← jsonField fields "id")
  let pos ← parsePositionConfig (← jsonField fields "position")
  let comps ← (← asArr (← jsonField fields "components")).mapM parseComponentConfig
  pure { id := idv, position := pos, components := comps }

/-- Deserialization of the DisplayConfig struct of display_types.rs, the
type from_str is invoked at in PoeDisplay::new (display.rs lines 81 and 99):
orientation, width, height and elements are all required fields; unknown
fields are ignored, which is the serde default. -/
def parseDisplayConfig (j : Json) : Option DisplayConfig := do
  let fields ← asObj j
  let o ← parseOrientation (← jsonField fields "orientation")
  let w ← asNum (← jsonField fields "width")
  let h ← asNum (← jsonField fields "height")
  let es ← (← asArr (← jsonField fields "elements")).mapM parseElementConfig
  pure { orientation := o, width := w, height := h, elements := es }

/-- default_config.rs get_system_hostname (lines 55 to 63): the argument is
the outcome of the one shot hostname command, some stdout when the command
ran and reported success, none otherwise; on success the trimmed output is
used, otherwise the fixed literal RustBerry. -/
def get_system_hostname (cmdOutput : Option String) : String :=
  match cmdOutput with
  | some out => out.trim
  | none => "RustBerry"

/-- default_config.rs get_default_display_config (lines 5 to 53): a two line
landscape layout with a centered hostname element and a centered fixed
greeting element. -/
def get_default_display_config (cmdOutput : Option String) : DisplayConfig :=
  let hostname := get_system_hostname cmdOutput
  { orientation := .Landscape
    width := 128
    height := 32
    elements :=
      [{ id := "hostname"
         position := { x := .Text "center", y := .Number 8 }
         components :=
           [{ value := { text := hostname, font := "FONT_6X12" }
              prefix_ := none
              suffix := none }] },
       { id := "hello_world"
         position := { x := .Text "center", y := .Number 22 }
         components :=
           [{ value := { text := "Hello World!", font := "PCSENIOR8_STYLE" }
              prefix_ := none
              suffix := none }] }] }

/-- Outcome of the configuration file interaction in PoeDisplay::new:
opening the file can fail, reading it can fail, or the raw text is
obtained. The obtained text is modelled after JSON lexing as an optional
Json value, none when the text is not valid JSON at all. -/
inductive IoOutcome
  | openFailure
  | readFailure
  | content (j : Option Json)

/-- The configuration loading portion of PoeDisplay::new (display.rs lines
84 to 109): an open failure or read failure is returned as an IoError, a
lexing or schema failure as a JsonError; every failure path returns an
error and no default configuration is substituted anywhere. -/
def loadDisplayConfig : IoOutcome → Except DisplayError DisplayConfig
  | .openFailure => .error .IoError
  | .readFailure => .error .IoError
  | .content none => .error .JsonError
  | .content (some j) =>
    match parseDisplayConfig j with
    | none => .error .JsonError
    | some c => .ok c

/-- The display initialization handling in main (main.rs lines 60 to 71): a
successful initialization is used, any error is wrapped in a message and
returned from main, which terminates the process. -/
def main_display_init (r : Except DisplayError DisplayConfig) :
    Except String DisplayConfig :=
  match r with
  | .ok d => .ok d
  | .error _ => .error "Display initialization failed"

/-- A dual orientation configuration document of the shape the
specification requires the loader to accept. -/
def dualOrientationDoc : Json :=
  Json.obj
    [("orientations", Json.obj
      [("landscape", Json.obj
        [("width", Json.num 128), ("height", Json.num 32), ("elements", Json.arr [])]),
       ("portrait", Json.obj
        [("width", Json.num 32), ("height", Json.num 128), ("elements", Json.arr [])])])]

/-- A well formed single orientation configuration document, with one
element whose component carries a suffix and no prefix. -/
def singleOrientationDoc : Json :=
  Json.obj
    [("orientation", Json.str "landscape"),
     ("width", Json.num 128),
     ("height", Json.num 32),
     ("elements", Json.arr
       [Json.obj
         [("id", Json.str "cpu"),
          ("position", Json.obj [("x", Json.str "center"), ("y", Json.num 8)]),
          ("components", Json.arr
            [Json.obj
              [("value", Json.obj
                [("text", Json.str "cpu_usage"), ("font", Json.str "FONT_5X8")]),
               ("suffix", Json.obj
                [("text", Json.str "%"), ("font", Json.str "FONT_5X8")])]])]])]

/-- The in memory model the single orientation document above denotes. -/
def singleOrientationParsed : DisplayConfig :=
  { orientation := .Landscape
    width := 128
    height := 32
    elements :=
      [{ id := "cpu"
         position := { x := .Text "center", y := .Number 8 }
         components :=
           [{ value := { text := "cpu_usage", font := "FONT_5X8" }
              prefix_ := none
              suffix := some { text := "%", font := "FONT_5X8" } }] }] }

/-- A concrete telemetry snapshot wired exactly as the main loop wires it
(main.rs lines 180 to 201): the ip_info triple carries the interface name
first and the ip string second, and interface_phys and interface_numvlan
come from split_interface on the interface name. -/
def snap0 : Telemetry :=
  { ip_info := ("eth0.99", "192.168.0.1", (192, 168, 0, 1))
    ip_address := "192.168.0.1"
    interface := "eth0.99"
    interface_phys := "eth"
    interface_numvlan := "0.99"
    ip_octets := (192, 168, 0, 1)
    cpu_usage := "42.0"
    cpu_temp_str := "55.1"
    ram_usage := "37.9"
    disk_usage := "12.5" }

/-- A small dual orientation configuration used to exercise the renderer in
witnesses: one landscape element with a suffix carrying component, an empty
portrait layout. -/
def cfg0 : Orientations :=
  { landscape :=
      { width := 128
        elements :=
          [{ id := "cpu"
             position := { x := .Text "center", y := .Number 8 }
             components :=
               [{ value := { text := "cpu_usage", font := "FONT_5X8" }
                  prefix_ := none
                  suffix := some { text := "%", font := "FONT_5X8" } }] }] }
    portrait := { width := 32, elements := [] } }

/-- A component carrying only a value and a suffix, as in the landscape
element of cfg0. -/
def comp0 : ComponentConfig :=
  { value := { text := "cpu_usage", font := "FONT_5X8" }
    prefix_ := none
    suffix := some { text := "%", font := "FONT_5X8" } }

/-- A component whose three runs all name unrecognized fonts. -/
def compBogus : ComponentConfig :=
  { value := { text := "CPU", font := "BOGUS" }
    prefix_ := some { text := "!", font := "WEIRD" }
    suffix := some { text := "?", font := "NOPE" } }

/-- The value run fields of a prepared component: the text is the resolved
value token and the width is its length times the character width of the
resolved font. -/
theorem prepareComponent_value (t : Telemetry) (c : ComponentConfig) :
    (prepareComponent t c).value_text = resolveValue t c.value.text
  ∧ (prepareComponent t c).value_font = fontFromName c.value.font
  ∧ (prepareComponent t c).value_width =
      ((resolveValue t c.value.text).length : Int) *
        get_char_width_from_text_style (fontFromName c.value.font) := by
  cases hp : c.prefix_ <;> cases hs : c.suffix <;>
    simp [prepareComponent, hp, hs]

/-- The prefix run fields of a prepared component when the prefix is
absent. -/
theorem prepareComponent_prefix_none (t : Telemetry) (c : ComponentConfig)
    (hp : c.prefix_ = none) :
    (prepareComponent t c).prefix_text = none
  ∧ (prepareComponent t c).prefix_font = none
  ∧ (prepareComponent t c).prefix_width = 0 := by
  cases hs : c.suffix <;> simp [prepareComponent, hp, hs]

/-- The prefix run fields of a prepared component when the prefix is
present. -/
theorem prepareComponent_prefix_some (t : Telemetry) (c : ComponentConfig)
    (p : PrefixSuffixConfig) (hp : c.prefix_ = some p) :
    (prepareComponent t c).prefix_text = some p.text
  ∧ (prepareComponent t c).prefix_font = some (fontFromName p.font)
  ∧ (prepareComponent t c).prefix_width =
      (p.text.length : Int) * get_char_width_from_text_style (fontFromName p.font) := by
  cases hs : c.suffix <;> simp [prepareComponent, hp, hs]

/-- The suffix run fields of a prepared component when the suffix is
absent. -/
theorem prepareComponent_suffix_none (t : Telemetry) (c : ComponentConfig)
    (hs : c.suffix = none) :
    (prepareComponent t c).suffix_text = none
  ∧ (prepareComponent t c).suffix_font = none
  ∧ (prepareComponent t c).suffix_width = 0 := by
  cases hp : c.prefix_ <;> simp [prepareComponent, hp, hs]

/-- The suffix run fields of a prepared component when the suffix is
present. -/
theorem prepareComponent_suffix_some (t : Telemetry) (c : ComponentConfig)
    (q : PrefixSuffixConfig) (hs : c.suffix = some q) :
    (prepareComponent t c).suffix_text = some q.text
  ∧ (prepareComponent t c).suffix_font = some (fontFromName q.font)
  ∧ (prepareComponent t c).suffix_width =
      (q.text.length : Int) * get_char_width_from_text_style (fontFromName q.font) := by
  cases hp : c.prefix_ <;> simp [prepareComponent, hp, hs]

/-- The total width of a prepared component is the sum of its three run
widths. -/
theorem prepareComponent_total (t : Telemetry) (c : ComponentConfig) :
    (prepareComponent t c).total_width =
      (prepareComponent t c).prefix_width + (prepareComponent t c).value_width +
        (prepareComponent t c).suffix_width := by
  cases hp : c.prefix_ <;> cases hs : c.suffix <;>
    simp [prepareComponent, hp, hs]

/-- Unfolding of the preparation fold of update_display from an arbitrary
accumulator. -/
theorem prepareElement_loop (t : Telemetry) (comps : List ComponentConfig)
    (acc : List PreparedComponent × Int) :
    comps.foldl
      (fun acc component =>
        let pc := prepareComponent t component
        (acc.1 ++ [pc], acc.2 + pc.total_width)) acc =
    (acc.1 ++ comps.map (prepareComponent t),
      acc.2 + (comps.map (fun c => (prepareComponent t c).total_width)).sum) := by
  induction comps generalizing acc with
  | nil => simp
  | cons c cs ih => simp [ih, add_assoc]

/-- The element preparation loop returns the componentwise preparation list
and the sum of the component total widths. -/
theorem prepareElement_eq (t : Telemetry) (comps : List ComponentConfig) :
    prepareElement t comps =
      (comps.map (prepareComponent t),
        (comps.map (fun c => (prepareComponent t c).total_width)).sum) := by
  simpa [prepareElement] using prepareElement_loop t comps ([], 0)

/-- C1: for every configuration path, if opening the file fails, reading it
fails, or parsing it against the config model fails, the loader is claimed
to substitute the built in default configuration and the process is claimed
never to terminate on a configuration error. The code does the opposite:
every such failure is returned as an error from PoeDisplay::new, never the
default configuration, and main returns that error, terminating the
process. -/
theorem c1_no_config_fallback :
    loadDisplayConfig IoOutcome.openFailure = Except.error DisplayError.IoError
  ∧ loadDisplayConfig IoOutcome.readFailure = Except.error DisplayError.IoError
  ∧ loadDisplayConfig (IoOutcome.content none) = Except.error DisplayError.JsonError
  ∧ loadDisplayConfig (IoOutcome.content (some (Json.obj []))) =
      Except.error DisplayError.JsonError
  ∧ main_display_init (loadDisplayConfig IoOutcome.openFailure) =
      Except.error "Display initialization failed"
  ∧ main_display_init (loadDisplayConfig (IoOutcome.content none)) =
      Except.error "Display initialization failed" :=
  ⟨rfl, rfl, rfl, rfl, rfl, rfl⟩

/-- C2: the claim states that both supported schema shapes parse into an in
memory DisplayConfig usable by the renderer. The declared config model is
only the flattened single orientation shape, so a dual orientation document
fails deserialization entirely, while a single orientation document
parses. -/
theorem c2_schema_shapes :
    parseDisplayConfig dualOrientationDoc = none
  ∧ parseDisplayConfig singleOrientationDoc = some singleOrientationParsed :=
  ⟨rfl, rfl⟩

/-- C3: horizontal origin resolution maps the center, left and right
keywords to centered, zero and right aligned origins, any other keyword to
zero, a literal number to itself, and anchor relative values to the anchor
shifted by half or all of the element width; vertical resolution maps a
number to itself, every keyword to zero, and an anchor relative value to
the anchor verbatim. Division truncates toward zero and nothing is
clamped. -/
theorem c3_position_resolution (W E n A : Int) (v al : String) :
    resolve_x_position W E (.Text "center") = Int.tdiv (W - E) 2
  ∧ resolve_x_position W E (.Text "left") = 0
  ∧ resolve_x_position W E (.Text "right") = W - E
  ∧ (v ≠ "center" → v ≠ "left" → v ≠ "right" →
      resolve_x_position W E (.Text v) = 0)
  ∧ resolve_x_position W E (.Number n) = n
  ∧ resolve_x_position W E (.Relative "center" A) = A - Int.tdiv E 2
  ∧ resolve_x_position W E (.Relative "left" A) = A
  ∧ resolve_x_position W E (.Relative "right" A) = A - E
  ∧ resolve_y_position (.Number n) = n
  ∧ resolve_y_position (.Text v) = 0
  ∧ resolve_y_position (.Relative al A) = A := by
  refine ⟨?_, ?_, ?_, ?_, ?_, ?_, ?_, ?_, ?_, ?_, ?_⟩ <;>
    first
    | (intro h1 h2 h3; simp [resolve_x_position, h1, h2, h3])
    | rfl

/-- C3 witness: centering a 20 pixel element on a 128 pixel canvas yields
54, an unknown keyword yields 0, and a right aligned element wider than the
canvas yields a negative unclamped origin. -/
theorem c3_position_resolution_witness :
    resolve_x_position 128 20 (.Text "center") = 54
  ∧ resolve_x_position 128 20 (.Text "foo") = 0
  ∧ resolve_x_position 10 20 (.Text "right") = -10
  ∧ resolve_x_position 10 20 (.Relative "center" 7) = -3 := by
  refine ⟨?_, ?_, ?_, ?_⟩
  · have h := (c3_position_resolution 128 20 0 0 "foo" "bar").1
    simpa using h
  · exact (c3_position_resolution 128 20 0 0 "foo" "bar").2.2.2.1
      (by decide) (by decide) (by decide)
  · have h := (c3_position_resolution 10 20 0 0 "foo" "bar").2.2.1
    simpa using h
  · have h := (c3_position_resolution 10 20 0 7 "foo" "bar").2.2.2.2.2.1
    simpa using h

/-- C8 counterexample: the claim lists a token for the primary IP address
among the recognized tokens. At a snapshot wired exactly as the main loop
wires it, the tuple indexed token ip_info.0 resolves to the interface name
eth0.99, not to the primary IP address, and no recognized token resolves to
the primary IP address at all. -/
theorem c8_counterexample :
    resolveValue snap0 "ip_info.0" = "eth0.99"
  ∧ snap0.ip_address = "192.168.0.1"
  ∧ resolveValue snap0 "ip_info.0" ≠ snap0.ip_address
  ∧ resolveValue snap0 "interface_phys" ≠ snap0.ip_address
  ∧ resolveValue snap0 "interface_numvlan" ≠ snap0.ip_address
  ∧ resolveValue snap0 "ip_octets(0)" ≠ snap0.ip_address
  ∧ resolveValue snap0 "ip_octets(1)" ≠ snap0.ip_address
  ∧ resolveValue snap0 "ip_octets(2)" ≠ snap0.ip_address
  ∧ resolveValue snap0 "ip_octets(3)" ≠ snap0.ip_address
  ∧ resolveValue snap0 "cpu_usage" ≠ snap0.ip_address
  ∧ resolveValue snap0 "cpu_temp" ≠ snap0.ip_address
  ∧ resolveValue snap0 "ram_usage" ≠ snap0.ip_address
  ∧ resolveValue snap0 "disk_usage" ≠ snap0.ip_address := by
  decide

/-- C8 (amended): value resolution is total and case sensitive exact match;
the recognized tokens are the physical interface name, the vlan qualified
interface suffix, the full interface name (the first component of the
ip_info triple, token ip_info.0), the four IP octets addressed by index,
CPU usage, CPU temperature, RAM usage and disk usage; every other input
string is returned unchanged, and resolution never fails. -/
theorem c8_value_resolution (t : Telemetry) (s : String) :
    resolveValue t "interface_phys" = t.interface_phys
  ∧ resolveValue t "interface_numvlan" = t.interface_numvlan
  ∧ resolveValue t "ip_info.0" = t.ip_info.1
  ∧ resolveValue t "ip_octets(0)" = toString t.ip_octets.1
  ∧ resolveValue t "ip_octets(1)" = toString t.ip_octets.2.1
  ∧ resolveValue t "ip_octets(2)" = toString t.ip_octets.2.2.1
  ∧ resolveValue t "ip_octets(3)" = toString t.ip_octets.2.2.2
  ∧ resolveValue t "cpu_usage" = t.cpu_usage
  ∧ resolveValue t "cpu_temp" = t.cpu_temp_str
  ∧ resolveValue t "ram_usage" = t.ram_usage
  ∧ resolveValue t "disk_usage" = t.disk_usage
  ∧ (s ∉ ["interface_phys", "interface_numvlan", "ip_info.0", "ip_octets(0)",
          "ip_octets(1)", "ip_octets(2)", "ip_octets(3)", "cpu_usage", "cpu_temp",
          "ram_usage", "disk_usage"] →
      resolveValue t s = s) := by
  refine ⟨rfl, rfl, rfl, rfl, rfl, rfl, rfl, rfl, rfl, rfl, rfl, ?_⟩
  intro h
  simp only [List.mem_cons, List.not_mem_nil, or_false, not_or] at h
  obtain ⟨h1, h2, h3, h4, h5, h6, h7, h8, h9, h10, h11⟩ := h
  simp [resolveValue, h1, h2, h3, h4, h5, h6, h7, h8, h9, h10, h11]

/-- C8 witness: a literal label such as CPU is not a recognized token and
passes through unchanged. -/
theorem c8_value_resolution_witness : resolveValue snap0 "CPU" = "CPU" :=
  (c8_value_resolution snap0 "CPU").2.2.2.2.2.2.2.2.2.2.2 (by decide)

/-- A font name outside the five recognized names resolves to FONT_5X8. -/
theorem fontFromName_unknown (name : String)
    (h : name ∉ ["FONT_5X8", "FONT_6X12", "PCSENIOR8_STYLE", "PROFONT12", "PROFONT9"]) :
    fontFromName name = FontStyle.FONT_5X8 := by
  simp only [List.mem_cons, List.not_mem_nil, or_false, not_or] at h
  obtain ⟨h1, h2, h3, h4, h5⟩ := h
  simp [fontFromName, h1, h2, h3, h4, h5]

/-- C5: for every font name and every text string the computed pixel width
of a run equals the text length times the sum of glyph cell width and glyph
spacing of the resolved font, the empty string has width zero, and the
computation is total: unrecognized font names resolve to the default font
metrics. -/
theorem c5_run_width (t : Telemetry) (c : ComponentConfig) (p q : PrefixSuffixConfig)
    (name : String) :
    (prepareComponent t c).value_width =
      ((resolveValue t c.value.text).length : Int) *
        (characterWidth (fontFromName c.value.font) +
          characterSpacing (fontFromName c.value.font))
  ∧ (resolveValue t c.value.text = "" → (prepareComponent t c).value_width = 0)
  ∧ (c.prefix_ = some p → (prepareComponent t c).prefix_width =
      (p.text.length : Int) *
        (characterWidth (fontFromName p.font) + characterSpacing (fontFromName p.font)))
  ∧ (c.suffix = some q → (prepareComponent t c).suffix_width =
      (q.text.length : Int) *
        (characterWidth (fontFromName q.font) + characterSpacing (fontFromName q.font)))
  ∧ (name ∉ ["FONT_5X8", "FONT_6X12", "PCSENIOR8_STYLE", "PROFONT12", "PROFONT9"] →
      fontFromName name = FontStyle.FONT_5X8) := by
  refine ⟨?_, ?_, ?_, ?_, fontFromName_unknown name⟩
  · simpa [get_char_width_from_text_style] using (prepareComponent_value t c).2.2
  · intro h
    have hv := (prepareComponent_value t c).2.2
    rw [hv, h]
    simp
  · intro hp
    simpa [get_char_width_from_text_style] using
      (prepareComponent_prefix_some t c p hp).2.2
  · intro hs
    simpa [get_char_width_from_text_style] using
      (prepareComponent_suffix_some t c q hs).2.2

/-- C5 witness: an empty resolved value has width zero, and an unrecognized
font name resolves to the default font. -/
theorem c5_run_width_witness :
    (prepareComponent snap0
      { value := { text := "", font := "BOGUS" }, prefix_ := none,
        suffix := some { text := "%", font := "FONT_5X8" } }).value_width = 0
  ∧ (prepareComponent snap0
      { value := { text := "", font := "BOGUS" }, prefix_ := none,
        suffix := some { text := "%", font := "FONT_5X8" } }).suffix_width = 5
  ∧ fontFromName "BOGUS" = FontStyle.FONT_5X8 := by
  refine ⟨?_, ?_, ?_⟩
  · exact (c5_run_width snap0 _ ⟨"", ""⟩ ⟨"", ""⟩ "BOGUS").2.1 (by decide)
  · have h := (c5_run_width snap0
      { value := { text := "", font := "BOGUS" }, prefix_ := none,
        suffix := some { text := "%", font := "FONT_5X8" } }
      ⟨"", ""⟩ { text := "%", font := "FONT_5X8" } "BOGUS").2.2.2.1 rfl
    simpa using h
  · exact (c5_run_width snap0 comp0 ⟨"", ""⟩ ⟨"", ""⟩ "BOGUS").2.2.2.2 (by decide)

/-- C6: the total element width accumulated by the preparation loop equals
the sum over the components of prefix width plus value width plus suffix
width, an absent prefix or suffix contributes width zero, and a component
with only a suffix has total width value width plus suffix width. -/
theorem c6_element_width (t : Telemetry) (comps : List ComponentConfig)
    (c : ComponentConfig) :
    (prepareElement t comps).2 =
      (comps.map (fun cc =>
        (prepareComponent t cc).prefix_width + (prepareComponent t cc).value_width +
          (prepareComponent t cc).suffix_width)).sum
  ∧ (prepareComponent t c).total_width =
      (prepareComponent t c).prefix_width + (prepareComponent t c).value_width +
        (prepareComponent t c).suffix_width
  ∧ (c.prefix_ = none → (prepareComponent t c).prefix_width = 0)
  ∧ (c.suffix = none → (prepareComponent t c).suffix_width = 0)
  ∧ (c.prefix_ = none → (prepareComponent t c).total_width =
      (prepareComponent t c).value_width + (prepareComponent t c).suffix_width) := by
  refine ⟨?_, prepareComponent_total t c, ?_, ?_, ?_⟩
  · simp [prepareElement_eq, prepareComponent_total]
  · intro hp
    exact (prepareComponent_prefix_none t c hp).2.2
  · intro hs
    exact (prepareComponent_suffix_none t c hs).2.2
  · intro hp
    rw [prepareComponent_total, (prepareComponent_prefix_none t c hp).2.2]
    simp

/-- C6 witness: the suffix only component of cfg0 has total width 25, which
is its value width 20 plus its suffix width 5 with no prefix
contribution. -/
theorem c6_element_width_witness :
    (prepareComponent snap0 comp0).total_width =
      (prepareComponent snap0 comp0).value_width +
        (prepareComponent snap0 comp0).suffix_width
  ∧ (prepareElement snap0 [comp0]).2 = 25 := by
  refine ⟨(c6_element_width snap0 [comp0] comp0).2.2.2.2 rfl, by rfl⟩

/-- The triples a prepared component emits: the prefix run at the cursor if
present, the value run advanced past the prefix width, the suffix run
advanced further past the value width if present, with the cursor ending at
the component total width. -/
theorem componentTriples_prepare (t : Telemetry) (x y : Int) (c : ComponentConfig) :
    componentTriples x y (prepareComponent t c) =
      ((match c.prefix_ with
        | some p => [{ text := p.text, x := x, y := y, font := fontFromName p.font }]
        | none => []) ++
       [{ text := resolveValue t c.value.text,
          x := x + (prepareComponent t c).prefix_width, y := y,
          font := fontFromName c.value.font }] ++
       (match c.suffix with
        | some q => [{ text := q.text,
                       x := x + (prepareComponent t c).prefix_width +
                         (prepareComponent t c).value_width,
                       y := y, font := fontFromName q.font }]
        | none => []),
       x + (prepareComponent t c).total_width) := by
  cases hp : c.prefix_ <;> cases hs : c.suffix <;>
    simp [componentTriples, prepareComponent, hp, hs, add_assoc]

/-- The cursor after one component advances by exactly the component total
width. -/
theorem componentTriples_snd (t : Telemetry) (x y : Int) (c : ComponentConfig) :
    (componentTriples x y (prepareComponent t c)).2 =
      x + (prepareComponent t c).total_width := by
  rw [componentTriples_prepare]

/-- Every triple a component emits sits on the y coordinate handed to the
drawing loop. -/
theorem componentTriples_y (x y : Int) (pc : PreparedComponent) :
    ∀ tr ∈ (componentTriples x y pc).1, tr.y = y := by
  cases hpt : pc.prefix_text <;> cases hpf : pc.prefix_font <;>
  cases hst : pc.suffix_text <;> cases hsf : pc.suffix_font <;>
    simp [componentTriples, hpt, hpf, hst, hsf]

/-- Every triple an element emits sits on the y coordinate of the element
origin. -/
theorem elementTriples_y (y : Int) (pcs : List PreparedComponent) :
    ∀ (x : Int), ∀ tr ∈ elementTriples x y pcs, tr.y = y := by
  induction pcs with
  | nil =>
    intro x tr h
    simp [elementTriples] at h
  | cons pc rest ih =>
    intro x tr h
    simp only [elementTriples] at h
    rcases List.mem_append.mp h with h1 | h2
    · exact componentTriples_y x y pc tr h1
    · exact ih _ tr h2

/-- A component emits one triple per present run. -/
theorem componentTriples_length (t : Telemetry) (x y : Int) (c : ComponentConfig) :
    ((componentTriples x y (prepareComponent t c)).1).length =
      1 + (if c.prefix_.isSome then 1 else 0) + (if c.suffix.isSome then 1 else 0) := by
  rw [componentTriples_prepare]
  cases hp : c.prefix_ <;> cases hs : c.suffix <;> simp [hp, hs]

/-- An element emits one triple per present run of each of its components,
in order. -/
theorem elementTriples_length (t : Telemetry) (y : Int) (cs : List ComponentConfig) :
    ∀ (x : Int), (elementTriples x y (cs.map (prepareComponent t))).length =
      (cs.map (fun cc => 1 + (if cc.prefix_.isSome then 1 else 0) +
        (if cc.suffix.isSome then 1 else 0))).sum := by
  induction cs with
  | nil =>
    intro x
    simp [elementTriples]
  | cons c rest ih =>
    intro x
    simp only [List.map_cons, elementTriples, List.length_append]
    rw [componentTriples_length, ih]
    simp

/-- C7: the draw loop emits exactly one triple per present run, walking the
components in schema order with prefix, value, suffix sub order, the x
cursor starting at the resolved origin and advancing by each emitted run
width with no extra gap, the y coordinate constant across the element, and
an element with zero components emits nothing. -/
theorem c7_draw_sequence (t : Telemetry) (x y : Int) (c : ComponentConfig)
    (cs : List ComponentConfig) (pcs : List PreparedComponent) :
    elementTriples x y [] = []
  ∧ (∀ tr ∈ elementTriples x y pcs, tr.y = y)
  ∧ componentTriples x y (prepareComponent t c) =
      ((match c.prefix_ with
        | some p => [{ text := p.text, x := x, y := y, font := fontFromName p.font }]
        | none => []) ++
       [{ text := resolveValue t c.value.text,
          x := x + (prepareComponent t c).prefix_width, y := y,
          font := fontFromName c.value.font }] ++
       (match c.suffix with
        | some q => [{ text := q.text,
                       x := x + (prepareComponent t c).prefix_width +
                         (prepareComponent t c).value_width,
                       y := y, font := fontFromName q.font }]
        | none => []),
       x + (prepareComponent t c).total_width)
  ∧ elementTriples x y ((c :: cs).map (prepareComponent t)) =
      (componentTriples x y (prepareComponent t c)).1 ++
        elementTriples (x + (prepareComponent t c).total_width) y
          (cs.map (prepareComponent t))
  ∧ (elementTriples x y (cs.map (prepareComponent t))).length =
      (cs.map (fun cc => 1 + (if cc.prefix_.isSome then 1 else 0) +
        (if cc.suffix.isSome then 1 else 0))).sum := by
  refine ⟨rfl, fun tr h => elementTriples_y y pcs x tr h,
    componentTriples_prepare t x y c, ?_, elementTriples_length t y cs x⟩
  simp only [List.map_cons, elementTriples, componentTriples_snd]

/-- C7 witness: the suffix triple of the cfg0 element sits at the advanced
cursor position with the element y coordinate, and the element emits two
triples, one per present run. -/
theorem c7_draw_sequence_witness :
    ({ text := "%", x := 71, y := 8, font := FontStyle.FONT_5X8 } : Triple).y = 8
  ∧ (elementTriples 51 8 ([comp0].map (prepareComponent snap0))).length = 2 := by
  constructor
  · exact (c7_draw_sequence snap0 51 8 comp0 [comp0]
      ([comp0].map (prepareComponent snap0))).2.1 _ (by decide)
  · have h := (c7_draw_sequence snap0 51 8 comp0 [comp0] []).2.2.2.2
    rw [h]
    rfl

/-- C9: an unrecognized font token in a value, prefix or suffix run
resolves to the smallest default font FONT_5X8, the layout never errors on
a font name, and the component is never dropped: it always emits its value
run. -/
theorem c9_unknown_font (t : Telemetry) (c : ComponentConfig)
    (p q : PrefixSuffixConfig) (name : String) (x y : Int) :
    (name ∉ ["FONT_5X8", "FONT_6X12", "PCSENIOR8_STYLE", "PROFONT12", "PROFONT9"] →
      fontFromName name = FontStyle.FONT_5X8)
  ∧ (c.value.font ∉ ["FONT_5X8", "FONT_6X12", "PCSENIOR8_STYLE", "PROFONT12", "PROFONT9"] →
      (prepareComponent t c).value_font = FontStyle.FONT_5X8)
  ∧ (c.prefix_ = some p →
      p.font ∉ ["FONT_5X8", "FONT_6X12", "PCSENIOR8_STYLE", "PROFONT12", "PROFONT9"] →
      (prepareComponent t c).prefix_font = some FontStyle.FONT_5X8)
  ∧ (c.suffix = some q →
      q.font ∉ ["FONT_5X8", "FONT_6X12", "PCSENIOR8_STYLE", "PROFONT12", "PROFONT9"] →
      (prepareComponent t c).suffix_font = some FontStyle.FONT_5X8)
  ∧ (componentTriples x y (prepareComponent t c)).1 ≠ [] := by
  refine ⟨fontFromName_unknown name, ?_, ?_, ?_, ?_⟩
  · intro h
    rw [(prepareComponent_value t c).2.1]
    exact fontFromName_unknown _ h
  · intro hp h
    rw [(prepareComponent_prefix_some t c p hp).2.1, fontFromName_unknown _ h]
  · intro hs h
    rw [(prepareComponent_suffix_some t c q hs).2.1, fontFromName_unknown _ h]
  · rw [componentTriples_prepare]
    cases hp : c.prefix_ <;> cases hs : c.suffix <;> simp [hp, hs]

/-- C9 witness: every run of a component naming only bogus fonts resolves
to FONT_5X8 and the component still emits its runs. -/
theorem c9_unknown_font_witness :
    fontFromName "BOGUS" = FontStyle.FONT_5X8
  ∧ (prepareComponent snap0 compBogus).value_font = FontStyle.FONT_5X8
  ∧ (prepareComponent snap0 compBogus).prefix_font = some FontStyle.FONT_5X8
  ∧ (prepareComponent snap0 compBogus).suffix_font = some FontStyle.FONT_5X8
  ∧ (componentTriples 0 0 (prepareComponent snap0 compBogus)).1 ≠ [] := by
  refine ⟨?_, ?_, ?_, ?_, ?_⟩
  · exact (c9_unknown_font snap0 compBogus ⟨"!", "WEIRD"⟩ ⟨"?", "NOPE"⟩ "BOGUS" 0 0).1
      (by decide)
  · exact (c9_unknown_font snap0 compBogus ⟨"!", "WEIRD"⟩ ⟨"?", "NOPE"⟩ "BOGUS" 0 0).2.1
      (by decide)
  · exact (c9_unknown_font snap0 compBogus ⟨"!", "WEIRD"⟩ ⟨"?", "NOPE"⟩ "BOGUS" 0 0).2.2.1
      rfl (by decide)
  · exact (c9_unknown_font snap0 compBogus ⟨"!", "WEIRD"⟩ ⟨"?", "NOPE"⟩ "BOGUS" 0 0).2.2.2.1
      rfl (by decide)
  · exact (c9_unknown_font snap0 compBogus ⟨"!", "WEIRD"⟩ ⟨"?", "NOPE"⟩ "BOGUS" 0 0).2.2.2.2

/-- The operations a run performs are the accumulator followed by a prefix
of the attempted list; the whole list on success, a proper prefix on
failure; and the surfaced result is success or the draw error. -/
theorem runOps_spec (dev : Nat → Bool) (l : List Op) :
    ∀ st : RunState, ∃ p,
      (runOps dev st l).1.ops = st.ops ++ p
    ∧ p <+: l
    ∧ ((runOps dev st l).2 = Except.ok () → p = l)
    ∧ ((runOps dev st l).2 ≠ Except.ok () → p.length < l.length)
    ∧ ((runOps dev st l).2 = Except.ok () ∨
        (runOps dev st l).2 = Except.error DisplayError.DisplayError) := by
  induction l with
  | nil =>
    intro st
    exact ⟨[], by simp [runOps], List.nil_prefix,
      fun _ => rfl, fun h => absurd rfl h, Or.inl rfl⟩
  | cons op rest ih =>
    intro st
    by_cases h : dev st.idx
    · obtain ⟨p, hops, hpre, hok, herr, hres⟩ :=
        ih { ops := st.ops ++ [op], idx := st.idx + 1 }
      refine ⟨op :: p, ?_, ?_, ?_, ?_, ?_⟩
      · simp only [runOps, if_pos h, hops, List.append_assoc, List.singleton_append]
      · exact List.cons_prefix_cons.mpr ⟨rfl, hpre⟩
      · intro hk
        rw [runOps, if_pos h] at hk
        rw [hok hk]
      · intro hk
        rw [runOps, if_pos h] at hk
        have := herr hk
        simpa using this
      · rw [runOps, if_pos h]
        exact hres
    · refine ⟨[], by simp [runOps, if_neg h], List.nil_prefix, ?_, ?_, ?_⟩
      · intro hk
        rw [runOps, if_neg h] at hk
        cases hk
      · intro _
        simp
      · rw [runOps, if_neg h]
        exact Or.inr rfl

/-- The flush operation occurs nowhere in the clear plus draws part of a
cycle. -/
theorem flush_not_mem_head (cfg : Orientations) (orientation_name : String)
    (t : Telemetry) :
    Op.flush ∉
      Op.clear :: ((selectOrientation cfg orientation_name).elements.flatMap
        (fun e => (layoutElement t (selectOrientation cfg orientation_name).width e).map
          Op.draw)) := by
  simp

/-- The cycle operation list splits as clear and draws followed by the
final flush. -/
theorem update_display_ops_split (cfg : Orientations) (orientation_name : String)
    (t : Telemetry) :
    update_display_ops cfg orientation_name t =
      (Op.clear :: ((selectOrientation cfg orientation_name).elements.flatMap
        (fun e => (layoutElement t (selectOrientation cfg orientation_name).width e).map
          Op.draw))) ++ [Op.flush] := by
  simp [update_display_ops]

/-- C4: a render cycle performs a prefix of the sequence clear, then every
element triple of the orientation block selected by name (landscape for any
unrecognized name), then flush; on success it performs exactly that
sequence; any draw or flush failure aborts the remaining operations and is
surfaced as an error, and no flush is performed on a failed cycle; the
clear always comes before anything else. -/
theorem c4_render_cycle (dev : Nat → Bool) (cfg : Orientations)
    (orientation_name : String) (t : Telemetry) :
    (update_display dev cfg orientation_name t).1 <+:
      update_display_ops cfg orientation_name t
  ∧ ((update_display dev cfg orientation_name t).2 = Except.ok () →
      (update_display dev cfg orientation_name t).1 =
        Op.clear :: ((selectOrientation cfg orientation_name).elements.flatMap
          (fun e => (layoutElement t (selectOrientation cfg orientation_name).width e).map
            Op.draw) ++ [Op.flush]))
  ∧ ((update_display dev cfg orientation_name t).2 ≠ Except.ok () →
      Op.flush ∉ (update_display dev cfg orientation_name t).1)
  ∧ ((update_display dev cfg orientation_name t).1 ≠ [] →
      ((update_display dev cfg orientation_name t).1).head? = some Op.clear)
  ∧ ((update_display dev cfg orientation_name t).2 = Except.ok () ∨
      (update_display dev cfg orientation_name t).2 =
        Except.error DisplayError.DisplayError)
  ∧ (orientation_name ≠ "portrait" →
      selectOrientation cfg orientation_name = cfg.landscape)
  ∧ selectOrientation cfg "portrait" = cfg.portrait := by
  obtain ⟨p, hops, hpre, hok, herr, hres⟩ :=
    runOps_spec dev (update_display_ops cfg orientation_name t) { ops := [], idx := 0 }
  have hfst : (update_display dev cfg orientation_name t).1 = p := by
    simpa [update_display] using hops
  have hsnd : (update_display dev cfg orientation_name t).2 =
      (runOps dev { ops := [], idx := 0 } (update_display_ops cfg orientation_name t)).2 :=
    rfl
  refine ⟨?_, ?_, ?_, ?_, ?_, ?_, rfl⟩
  · rw [hfst]
    exact hpre
  · intro hk
    rw [hsnd] at hk
    rw [hfst, hok hk]
    simp [update_display_ops]
  · intro hk hmem
    rw [hsnd] at hk
    have hlt := herr hk
    rw [hfst] at hmem
    have htake := List.prefix_iff_eq_take.mp hpre
    rw [update_display_ops_split] at htake hlt
    have hle : p.length ≤
        (Op.clear :: ((selectOrientation cfg orientation_name).elements.flatMap
          (fun e => (layoutElement t (selectOrientation cfg orientation_name).width e).map
            Op.draw))).length := by
      simp only [List.length_append, List.length_cons, List.length_nil] at hlt ⊢
      omega
    rw [List.take_append_of_le_length hle] at htake
    have hsub : p ⊆ Op.clear ::
        ((selectOrientation cfg orientation_name).elements.flatMap
          (fun e => (layoutElement t (selectOrientation cfg orientation_name).width e).map
            Op.draw)) := by
      rw [htake]
      exact List.take_subset _ _
    exact flush_not_mem_head cfg orientation_name t (hsub hmem)
  · intro hne
    rw [hfst] at hne ⊢
    have hpre2 : p <+: Op.clear ::
        (((selectOrientation cfg orientation_name).elements.flatMap
          (fun e => (layoutElement t (selectOrientation cfg orientation_name).width e).map
            Op.draw)) ++ [Op.flush]) := hpre
    cases p with
    | nil => exact absurd rfl hne
    | cons a as =>
      obtain ⟨ha, -⟩ := List.cons_prefix_cons.mp hpre2
      simp [ha]
  · rw [hsnd]
    exact hres
  · intro hn
    simp [selectOrientation, hn]

/-- C4 witness: with an always succeeding device an unrecognized
orientation name renders the landscape block as the full clear, draws,
flush sequence; a device failing from the third operation on yields an
error cycle with no flush performed; clear is always the first performed
operation. -/
theorem c4_render_cycle_witness :
    (update_display (fun _ => true) cfg0 "weird" snap0).1 =
      Op.clear :: ((selectOrientation cfg0 "weird").elements.flatMap
        (fun e => (layoutElement snap0 (selectOrientation cfg0 "weird").width e).map
          Op.draw) ++ [Op.flush])
  ∧ Op.flush ∉ (update_display (fun i => i < 2) cfg0 "weird" snap0).1
  ∧ selectOrientation cfg0 "weird" = cfg0.landscape
  ∧ ((update_display (fun _ => true) cfg0 "weird" snap0).1).head? = some Op.clear := by
  refine ⟨?_, ?_, ?_, ?_⟩
  · exact (c4_render_cycle (fun _ => true) cfg0 "weird" snap0).2.1 rfl
  · exact (c4_render_cycle (fun i => i < 2) cfg0 "weird" snap0).2.2.1
      (fun h => nomatch h)
  · exact (c4_render_cycle (fun _ => true) cfg0 "weird" snap0).2.2.2.2.2.1 (by decide)
  · exact (c4_render_cycle (fun _ => true) cfg0 "weird" snap0).2.2.2.1 (by decide)

/-- Splitting never yields an empty part list. -/
theorem splitDot_ne_nil (l : List Char) : splitDot l ≠ [] := by
  induction l with
  | nil => simp [splitDot]
  | cons c rest ih =>
    simp only [splitDot]
    cases h : splitDot rest with
    | nil => simp
    | cons p ps => by_cases hc : c = '.' <;> simp [hc]

/-- A dot free list splits into the single part holding the whole list. -/
theorem splitDot_no_dot (l : List Char) (h : '.' ∉ l) : splitDot l = [l] := by
  induction l with
  | nil => rfl
  | cons c rest ih =>
    have hc : ¬ c = '.' := fun e => h (by simp [e])
    have hr : '.' ∉ rest := fun m => h (List.mem_cons_of_mem _ m)
    simp only [splitDot]
    rw [ih hr]
    simp [hc]

/-- Splitting a list that starts with a dot free part followed by a dot
yields that part followed by the split of the remainder. -/
theorem splitDot_append (a b : List Char) (ha : '.' ∉ a) :
    splitDot (a ++ '.' :: b) = a :: splitDot b := by
  induction a with
  | nil =>
    simp only [List.nil_append, splitDot]
    cases h : splitDot b with
    | nil => exact absurd h (splitDot_ne_nil b)
    | cons p ps => simp
  | cons c a2 ih =>
    have hc : ¬ c = '.' := fun e => ha (by simp [e])
    have ha2 : '.' ∉ a2 := fun m => ha (List.mem_cons_of_mem _ m)
    rw [List.cons_append, splitDot, ih ha2]
    simp [hc]

/-- Joining the split of a list with dots restores the list. -/
theorem joinDots_splitDot (l : List Char) : joinDots (splitDot l) = l := by
  induction l with
  | nil => rfl
  | cons c rest ih =>
    cases h : splitDot rest with
    | nil => exact absurd h (splitDot_ne_nil rest)
    | cons p ps =>
      rw [h] at ih
      rw [splitDot, h]
      cases ps with
      | nil =>
        simp only [joinDots] at ih
        by_cases hc : c = '.' <;> simp [hc, joinDots, ih]
      | cons q qs =>
        simp only [joinDots] at ih
        by_cases hc : c = '.' <;> simp [hc, joinDots, ih]

/-- No part produced by the split contains a dot. -/
theorem splitDot_parts_no_dot (l : List Char) : ∀ p ∈ splitDot l, '.' ∉ p := by
  induction l with
  | nil =>
    intro p hp
    simp [splitDot] at hp
    subst hp
    simp
  | cons c rest ih =>
    intro p hp
    cases h : splitDot rest with
    | nil => exact absurd h (splitDot_ne_nil rest)
    | cons q qs =>
      rw [h] at ih
      by_cases hc : c = '.'
      · simp [splitDot, h, hc] at hp
        rcases hp with rfl | rfl | hp2
        · simp
        · exact ih p (List.mem_cons_self _ _)
        · exact ih p (List.mem_cons_of_mem _ hp2)
      · simp [splitDot, h, hc] at hp
        rcases hp with rfl | hp2
        · intro hm
          rcases List.mem_cons.mp hm with he | hm2
          · exact hc he.symm
          · exact ih q (List.mem_cons_self _ _) hm2
        · exact ih p (List.mem_cons_of_mem _ hp2)

/-- A split into exactly two parts inverts to a single dot between two dot
free parts. -/
theorem splitDot_two_parts (l p0 p1 : List Char) (h : splitDot l = [p0, p1]) :
    l = p0 ++ '.' :: p1 ∧ '.' ∉ p0 ∧ '.' ∉ p1 := by
  refine ⟨?_, ?_, ?_⟩
  · have hj := joinDots_splitDot l
    rw [h] at hj
    simpa [joinDots] using hj.symm
  · exact splitDot_parts_no_dot l p0 (by rw [h]; simp)
  · exact splitDot_parts_no_dot l p1 (by rw [h]; simp)

/-- C10: for every interface name with exactly one dot and a nonempty part
before it, split_interface removes the final character of the leading part
(keeping the whole part when it is a single character) and prepends that
character and a dot to the trailing part as the vlan string; every other
input comes back with an empty vlan string. -/
theorem c10_split_interface (a b : List Char) (s : String) :
    (∀ (_ha : '.' ∉ a) (_hb : '.' ∉ b) (hne : a ≠ []),
      split_interface (String.mk (a ++ '.' :: b)) =
        (String.mk (if 1 < a.length then a.dropLast else a),
          String.mk (a.getLast hne :: '.' :: b)))
  ∧ ((¬ ∃ a2 b2 : List Char,
        s.toList = a2 ++ '.' :: b2 ∧ '.' ∉ a2 ∧ '.' ∉ b2 ∧ a2 ≠ []) →
      split_interface s = (s, "")) := by
  constructor
  · intro ha hb hne
    obtain ⟨x, xs, rfl⟩ : ∃ x xs, a = x :: xs := by
      cases a with
      | nil => exact absurd rfl hne
      | cons x xs => exact ⟨x, xs, rfl⟩
    have hsd : splitDot (String.mk ((x :: xs) ++ '.' :: b)).toList = [x :: xs, b] := by
      rw [show (String.mk ((x :: xs) ++ '.' :: b)).toList = (x :: xs) ++ '.' :: b from rfl,
        splitDot_append _ b ha, splitDot_no_dot b hb]
    simp only [split_interface, hsd]
    rw [List.getLast?_eq_getLast (x :: xs) (by simp)]
    simp only [List.isEmpty_cons, Bool.false_eq_true, if_false]
    by_cases hlen : 0 < xs.length <;> simp [hlen]
  · intro hno
    cases hsd : splitDot s.data with
    | nil => exact absurd hsd (splitDot_ne_nil _)
    | cons p0 ps =>
      cases ps with
      | nil => simp [split_interface, String.toList, hsd]
      | cons p1 ps2 =>
        cases ps2 with
        | nil =>
          obtain ⟨hl, h0, h1⟩ := splitDot_two_parts _ p0 p1 hsd
          by_cases hp0 : p0 = []
          · subst hp0
            simp [split_interface, String.toList, hsd]
          · exact absurd ⟨p0, p1, hl, h0, h1, hp0⟩ hno
        | cons p2 ps3 => simp [split_interface, String.toList, hsd]

/-- C10 witness: eth0.99 splits into eth and 0.99, and a dotless name comes
back unchanged with an empty vlan string. -/
theorem c10_split_interface_witness :
    split_interface (String.mk ['e', 't', 'h', '0', '.', '9', '9']) =
      (String.mk ['e', 't', 'h'], String.mk ['0', '.', '9', '9'])
  ∧ split_interface "lo" = ("lo", "") := by
  constructor
  · have h := (c10_split_interface ['e', 't', 'h', '0'] ['9', '9'] "lo").1
      (by decide) (by decide) (by decide)
    exact h.trans (by decide)
  · refine (c10_split_interface [] [] "lo").2 ?_
    rintro ⟨a2, b2, hab, -, -, -⟩
    have hm : '.' ∈ "lo".toList := by
      rw [hab]
      exact List.mem_append_right _ (List.mem_cons_self _ _)
    simp [String.toList] at hm

end RustBerry
